import Mathlib

/-!
# Verification of `guest_display.py` (hotel-facing sustainability dashboard)

Shallow embedding of the data loader (`load_data`) and the guest-impact
calculator (`calculate_guest_impact`) of `src/guest_display.py`, together
with theorems settling the frozen claims about them.

Modelling conventions:
* pandas timestamps are modelled by a `Date` record (year, month, day);
  `pd.DateOffset(years=1)` / `pd.DateOffset(months=1)` subtraction becomes
  `prevYear` / `prevMonth`, which keep the calendar fields and clamp the
  day to the length of the target month exactly as pandas does.
* float columns are modelled by `ℚ`; the pandas integer `Sleepers` column
  by `Int`.  A pandas `mean()` over an empty selection yields `NaN`; this
  is modelled by `Option ℚ` with `none` playing the role of `NaN`, and
  Python's `max(0, nan) = 0` behaviour is captured by `maxZeroSubOpt`.
* a wide DataFrame (one column per hotel) is a `WideTable`: a list of
  declared columns plus rows holding a month and per-hotel cells.
  Selecting a column that is not declared raises `KeyError` in pandas;
  in the model this is the membership guard of `calculate_guest_impact`.
* the `try/except` blocks returning `None` become `Option` results.
-/

set_option autoImplicit false

/-- A calendar date, as carried by the parsed `Month` columns. -/
structure Date where
  year : Int
  month : Nat
  day : Nat
  deriving DecidableEq

/-- Gregorian leap-year rule (what `datetime`/pandas use). -/
def isLeap (y : Int) : Bool :=
  y % 4 == 0 && (y % 100 != 0 || y % 400 == 0)

/-- Number of days of month `m` of year `y`. -/
def daysInMonth (y : Int) (m : Nat) : Nat :=
  if m = 2 then (if isLeap y then 29 else 28)
  else if m = 4 ∨ m = 6 ∨ m = 9 ∨ m = 11 then 30
  else 31

/-- `ts - pd.DateOffset(years=1)`: same month and day one year earlier,
with the day clamped to the length of the target month. -/
def prevYear (d : Date) : Date :=
  ⟨d.year - 1, d.month, min d.day (daysInMonth (d.year - 1) d.month)⟩

/-- `ts - pd.DateOffset(months=1)`: one month earlier, day clamped. -/
def prevMonth (d : Date) : Date :=
  if d.month = 1 then ⟨d.year - 1, 12, min d.day 31⟩
  else ⟨d.year, d.month - 1, min d.day (daysInMonth d.year (d.month - 1))⟩

/-- Chronological comparison of dates (pandas timestamp order),
lexicographic on (year, month, day). -/
def dateLe (a b : Date) : Bool :=
  a.year < b.year ||
    (a.year == b.year &&
      (a.month < b.month || (a.month == b.month && a.day ≤ b.day)))

/-- The later of two dates, as used by the running maximum. -/
def dmax (a b : Date) : Date := if dateLe a b then b else a

/-- English month name, as produced by `strftime('%B')`. -/
def monthName (m : Nat) : String :=
  match m with
  | 1 => "January" | 2 => "February" | 3 => "March" | 4 => "April"
  | 5 => "May" | 6 => "June" | 7 => "July" | 8 => "August"
  | 9 => "September" | 10 => "October" | 11 => "November" | 12 => "December"
  | _ => ""

/-- `ts.strftime('%B %Y')`, the month label put into the result bundle. -/
def monthLabel (d : Date) : String :=
  monthName d.month ++ " " ++ toString d.year

/-- One row of `data/waste.csv` after loading. -/
structure WasteRow where
  month : Date
  hotel : String
  recyclingRates : ℚ
  foodWaste : ℚ
  deriving DecidableEq

/-- One row of a wide usage table (`data/elec.csv` / `data/water.csv`):
the month plus the per-hotel usage cells. -/
structure WideRow where
  month : Date
  cells : List (String × ℚ)
  deriving DecidableEq

/-- A wide usage DataFrame: its declared hotel columns and its rows.
In pandas every row carries a value for every declared column; `colSum`
reads a cell through `List.lookup` with default `0`, which agrees with
pandas on every table a CSV can produce. -/
structure WideTable where
  cols : List String
  rows : List WideRow
  deriving DecidableEq

/-- One row of `data/occ_sleepers.csv` after loading.  `occupancyRate`
is the converted `Occupancy Rate` cell; `none` marks a non-finite float
(an `inf`/`nan` spelling, which `float()` converts successfully).  The
field is never read by `calculate_guest_impact`, so only the success of
its conversion is observable. -/
structure OccRow where
  month : Date
  hotel : String
  sleepers : Int
  occupancyRate : Option ℚ
  deriving DecidableEq

/-- The bundle returned by `load_data`. -/
structure DataBundle where
  waste : List WasteRow
  electricity : WideTable
  water : WideTable
  occupancy : List OccRow
  deriving DecidableEq

/-- `data['waste']['Month'].max()`: the running maximum of the waste
months, `none` when the table is empty (`max()` gives `NaT`, which makes
the final `strftime` raise, so the whole calculation returns `None`). -/
def latestMonth (ws : List WasteRow) : Option Date :=
  match ws.map WasteRow.month with
  | [] => none
  | d :: ds => some (ds.foldl dmax d)

/-- `df[df['Month'] == m][h].sum()` on a wide table: total usage of hotel
`h` in month `m` (0 when no row matches, as pandas' empty sum). -/
def colSum (t : WideTable) (h : String) (m : Date) : ℚ :=
  ((t.rows.filter (fun r => decide (r.month = m))).map
    (fun r => (r.cells.lookup h).getD 0)).sum

/-- `occ[occ['Hotel'] == h][occ['Month'] == m]['Sleepers'].sum()`:
total sleepers of hotel `h` in month `m` (0 on an empty selection). -/
def sleeperSum (os : List OccRow) (h : String) (m : Date) : Int :=
  ((os.filter (fun o => decide (o.hotel = h ∧ o.month = m))).map
    OccRow.sleepers).sum

/-- The waste rows of hotel `h` in month `m`
(`hotel_waste[hotel_waste['Month'] == m]`). -/
def wasteSel (ws : List WasteRow) (h : String) (m : Date) : List WasteRow :=
  ws.filter (fun w => decide (w.hotel = h ∧ w.month = m))

/-- pandas `Series.mean()`: `none` (NaN) on an empty selection. -/
def listMean (xs : List ℚ) : Option ℚ :=
  if xs.isEmpty then none else some (xs.sum / (xs.length : ℚ))

/-- Python's `x / s if s > 0 else 0`: the per-guest ratio as computed in
`calculate_guest_impact` (lines 103-104 and 112-113). -/
def perGuest (w : ℚ) (s : Int) : ℚ :=
  if 0 < s then w / (s : ℚ) else 0

/-- Python's `max(0, x)` on real numbers. -/
def maxZero (x : ℚ) : ℚ :=
  if 0 < x then x else 0

/-- Python's `max(0, p - c)` where `p` and `c` may be `NaN` (`none`):
`nan - x` is `nan` and `max(0, nan)` evaluates to `0`, since `nan > 0`
is false. -/
def maxZeroSubOpt (p c : Option ℚ) : ℚ :=
  match p, c with
  | some p, some c => maxZero (p - c)
  | _, _ => 0

/-- The result bundle built at lines 127-134 of `guest_display.py`.
`recyclingRate` is `Option ℚ` because the pandas mean of an empty
selection is `NaN`. -/
structure GuestImpact where
  waterSaved : ℚ
  co2Saved : ℚ
  recyclingRate : Option ℚ
  recyclingTarget : ℚ
  foodSaved : ℚ
  month : String
  deriving DecidableEq

/-- The metric computations of `calculate_guest_impact` for a given
latest month (the body of the `try` block after `latest_month`). -/
def impactAt (data : DataBundle) (h : String) (latest : Date) : GuestImpact :=
  let currentMonthWater := colSum data.water h latest
  let prevYearWater := colSum data.water h (prevYear latest)
  let currentMonthOcc := sleeperSum data.occupancy h latest
  let prevYearOcc := sleeperSum data.occupancy h (prevYear latest)
  let currentWaterPerGuest := perGuest currentMonthWater currentMonthOcc
  let prevWaterPerGuest := perGuest prevYearWater prevYearOcc
  let currentEnergy := colSum data.electricity h latest
  let prevYearEnergy := colSum data.electricity h (prevYear latest)
  let currentEnergyPerGuest := perGuest currentEnergy currentMonthOcc
  let prevEnergyPerGuest := perGuest prevYearEnergy prevYearOcc
  { waterSaved := maxZero (prevWaterPerGuest - currentWaterPerGuest)
    co2Saved := maxZero ((prevEnergyPerGuest - currentEnergyPerGuest) * 0.233)
    recyclingRate :=
      listMean ((wasteSel data.waste h latest).map WasteRow.recyclingRates)
    recyclingTarget := 0.5
    foodSaved :=
      maxZeroSubOpt
        (listMean ((wasteSel data.waste h (prevMonth latest)).map WasteRow.foodWaste))
        (listMean ((wasteSel data.waste h latest).map WasteRow.foodWaste))
    month := monthLabel latest }

/-- `calculate_guest_impact(data, selected_hotel)` (lines 83-137).
The `try/except` returns `None` exactly when the waste table has no
month at all (`max()` is `NaT` and the final `strftime` raises) or the
selected hotel is not a column of the water or electricity table
(`KeyError` at the column selections of lines 91-92); every other path
produces the full metric dictionary. -/
def calculate_guest_impact (data : DataBundle) (h : String) : Option GuestImpact :=
  match latestMonth data.waste with
  | none => none
  | some latest =>
    if h ∈ data.water.cols ∧ h ∈ data.electricity.cols then
      some (impactAt data h latest)
    else none

/-! ## Basic facts about the chronological order and the running maximum -/

theorem dateLe_refl (a : Date) : dateLe a a = true := by
  simp [dateLe]

theorem dateLe_total (a b : Date) : dateLe a b = true ∨ dateLe b a = true := by
  simp only [dateLe, Bool.or_eq_true, Bool.and_eq_true, decide_eq_true_eq,
    beq_iff_eq]
  omega

theorem dateLe_trans {a b c : Date} (h1 : dateLe a b = true)
    (h2 : dateLe b c = true) : dateLe a c = true := by
  simp only [dateLe, Bool.or_eq_true, Bool.and_eq_true, decide_eq_true_eq,
    beq_iff_eq] at h1 h2 ⊢
  omega

theorem foldl_dmax_choice (ds : List Date) (a : Date) :
    ds.foldl dmax a = a ∨ ds.foldl dmax a ∈ ds := by
  induction ds generalizing a with
  | nil => exact Or.inl rfl
  | cons d ds ih =>
    simp only [List.foldl_cons]
    rcases ih (dmax a d) with h | h
    · rw [h]
      unfold dmax
      split
      · exact Or.inr (List.mem_cons_self _ _)
      · exact Or.inl rfl
    · exact Or.inr (List.mem_cons_of_mem _ h)

theorem foldl_dmax_le (ds : List Date) (a : Date) :
    dateLe a (ds.foldl dmax a) = true ∧
      ∀ d ∈ ds, dateLe d (ds.foldl dmax a) = true := by
  induction ds generalizing a with
  | nil => simp [dateLe_refl]
  | cons d ds ih =>
    have hab : dateLe a (dmax a d) = true := by
      unfold dmax
      split
      · assumption
      · exact dateLe_refl a
    have hdb : dateLe d (dmax a d) = true := by
      unfold dmax
      split
      · exact dateLe_refl d
      · rcases dateLe_total a d with h | h
        · exact absurd h (by assumption)
        · exact h
    obtain ⟨h1, h2⟩ := ih (dmax a d)
    simp only [List.foldl_cons]
    refine ⟨dateLe_trans hab h1, ?_⟩
    intro x hx
    rcases List.mem_cons.mp hx with rfl | hx
    · exact dateLe_trans hdb h1
    · exact h2 x hx

/-- `latestMonth` returns a month of the waste table that is at least
every month of the waste table: `Series.max()`. -/
theorem latestMonth_spec {ws : List WasteRow} {m : Date}
    (h : latestMonth ws = some m) :
    m ∈ ws.map WasteRow.month ∧
      ∀ d ∈ ws.map WasteRow.month, dateLe d m = true := by
  unfold latestMonth at h
  cases hw : ws.map WasteRow.month with
  | nil => rw [hw] at h; cases h
  | cons d ds =>
    rw [hw] at h
    injection h with h
    subst h
    refine ⟨?_, ?_⟩
    · rcases foldl_dmax_choice ds d with h | h
      · rw [h]; exact List.mem_cons_self _ _
      · exact List.mem_cons_of_mem _ h
    · intro x hx
      obtain ⟨h1, h2⟩ := foldl_dmax_le ds d
      rcases List.mem_cons.mp hx with rfl | hx
      · exact h1
      · exact h2 x hx

theorem latestMonth_eq_none_iff (ws : List WasteRow) :
    latestMonth ws = none ↔ ws = [] := by
  cases ws <;> simp [latestMonth]

/-- Inversion for success of the calculator: a result is produced exactly
from the latest waste month with both usage columns present, and it is the
metric record computed at that month. -/
theorem calculate_eq_some {data : DataBundle} {h : String} {r : GuestImpact}
    (hc : calculate_guest_impact data h = some r) :
    ∃ m, latestMonth data.waste = some m ∧ h ∈ data.water.cols ∧
      h ∈ data.electricity.cols ∧ r = impactAt data h m := by
  unfold calculate_guest_impact at hc
  split at hc
  · cases hc
  next m hm =>
    split at hc
    next hcols =>
      injection hc with hc
      exact ⟨m, hm, hcols.1, hcols.2, hc.symm⟩
    next => cases hc

/-! ## Facts about the clamp `max(0, ·)` -/

theorem maxZero_eq_max (x : ℚ) : maxZero x = max 0 x := by
  unfold maxZero
  rcases lt_or_le 0 x with h | h
  · rw [if_pos h, max_eq_right h.le]
  · rw [if_neg (not_lt.mpr h), max_eq_left h]

theorem maxZero_nonneg (x : ℚ) : 0 ≤ maxZero x := by
  unfold maxZero
  split
  · exact le_of_lt (by assumption)
  · exact le_refl 0

theorem maxZero_mul_pos (x c : ℚ) (hc : 0 < c) :
    maxZero (x * c) = maxZero x * c := by
  unfold maxZero
  rcases lt_or_le 0 x with h | h
  · rw [if_pos h, if_pos (mul_pos h hc)]
  · have hxc : x * c ≤ 0 := by
      have := mul_le_mul_of_nonneg_right h hc.le
      rwa [zero_mul] at this
    rw [if_neg (not_lt.mpr h), if_neg (not_lt.mpr hxc), zero_mul]

theorem maxZero_of_nonpos {x : ℚ} (h : x ≤ 0) : maxZero x = 0 := by
  unfold maxZero
  rw [if_neg (not_lt.mpr h)]

theorem perGuest_nonneg {w : ℚ} (s : Int) (hw : 0 ≤ w) :
    0 ≤ perGuest w s := by
  unfold perGuest
  split
  · exact div_nonneg hw (by positivity)
  · exact le_refl 0

theorem maxZeroSubOpt_nonneg (p c : Option ℚ) : 0 ≤ maxZeroSubOpt p c := by
  unfold maxZeroSubOpt
  split
  · exact maxZero_nonneg _
  · exact le_refl 0

theorem perGuest_zero_denom (w : ℚ) : perGuest w 0 = 0 := by
  simp [perGuest]

/-! ## Spec-side definitions (transcribed from `spec.md`, for comparison
with the code-side definitions above) -/

/-- The per-guest value exactly as §4.2 of the spec words it: "total
metered usage for the hotel in a given month ÷ total Sleepers for the
hotel in that month (0 if Sleepers is 0, to avoid division by zero)". -/
def specPerGuest (w : ℚ) (s : Int) : ℚ :=
  if s = 0 then 0 else w / (s : ℚ)

/-- "Water saved per guest = max(0, prevYearWaterPerGuest −
currentWaterPerGuest)" built from `specPerGuest`, at latest month `m`
and the month twelve months earlier. -/
def specWaterSaved (data : DataBundle) (h : String) (m : Date) : ℚ :=
  max 0
    (specPerGuest (colSum data.water h (prevYear m))
        (sleeperSum data.occupancy h (prevYear m)) -
      specPerGuest (colSum data.water h m) (sleeperSum data.occupancy h m))

/-! ## Concrete data bundles used by witnesses and counterexamples -/

/-- The spec's own worked example: water 1000 units over 100 guests this
year against 1200 over 100 a year before (saving 2), and electricity
1000 over 100 against 2000 over 100 (a 10-unit-per-guest drop). -/
def exampleBundle : DataBundle :=
  { waste := [⟨⟨2025, 6, 1⟩, "H", 1/2, 1⟩],
    electricity := ⟨["H"], [⟨⟨2025, 6, 1⟩, [("H", 1000)]⟩,
                            ⟨⟨2024, 6, 1⟩, [("H", 2000)]⟩]⟩,
    water := ⟨["H"], [⟨⟨2025, 6, 1⟩, [("H", 1000)]⟩,
                      ⟨⟨2024, 6, 1⟩, [("H", 1200)]⟩]⟩,
    occupancy := [⟨⟨2025, 6, 1⟩, "H", 100, some 1⟩,
                  ⟨⟨2024, 6, 1⟩, "H", 100, some 1⟩] }

/-- The metric record the program produces on `exampleBundle`. -/
def exampleImpact : GuestImpact :=
  ⟨2, 233/100, some (1/2), 1/2, 0, "June 2025"⟩

theorem exampleBundle_eval :
    calculate_guest_impact exampleBundle "H" = some exampleImpact := by
  norm_num [calculate_guest_impact, exampleBundle, exampleImpact, impactAt,
    latestMonth, dmax, dateLe, colSum, sleeperSum, wasteSel, listMean,
    perGuest, maxZero, maxZeroSubOpt, prevYear, prevMonth, daysInMonth,
    isLeap, monthLabel, monthName, List.filter, List.lookup]
  rfl

/-- A bundle whose occupancy table carries a negative `Sleepers` total
for the latest month (pandas `int64` admits negative values). -/
def negSleepersBundle : DataBundle :=
  { waste := [⟨⟨2025, 6, 1⟩, "H", 1/2, 1⟩],
    electricity := ⟨["H"], []⟩,
    water := ⟨["H"], [⟨⟨2025, 6, 1⟩, [("H", 10)]⟩]⟩,
    occupancy := [⟨⟨2025, 6, 1⟩, "H", -1, some 1⟩] }

/-- A bundle whose only waste row carries a negative `Recycling Rates`
value. -/
def negRateBundle : DataBundle :=
  { waste := [⟨⟨2025, 6, 1⟩, "H", -1, 1⟩],
    electricity := ⟨["H"], []⟩,
    water := ⟨["H"], []⟩,
    occupancy := [] }

/-- A bundle with no row at all for the previous-year month and a
negative current-month water reading. -/
def negUsageBundle : DataBundle :=
  { waste := [⟨⟨2025, 6, 1⟩, "H", 1/2, 1⟩],
    electricity := ⟨["H"], []⟩,
    water := ⟨["H"], [⟨⟨2025, 6, 1⟩, [("H", -5)]⟩]⟩,
    occupancy := [⟨⟨2025, 6, 1⟩, "H", 1, some 1⟩] }

/-- Two consecutive waste months for the food-waste metric: mean Food
Waste 5 in May 2025 and 2 in June 2025. -/
def foodBundle : DataBundle :=
  { waste := [⟨⟨2025, 6, 1⟩, "H", 1/2, 2⟩, ⟨⟨2025, 5, 1⟩, "H", 1/2, 5⟩],
    electricity := ⟨["H"], []⟩,
    water := ⟨["H"], []⟩,
    occupancy := [] }

/-- A bundle with usage data only for the latest month: the comparison
month one year earlier is absent from every table. -/
def noPrevYearBundle : DataBundle :=
  { waste := [⟨⟨2025, 6, 1⟩, "H", 1/2, 1⟩],
    electricity := ⟨["H"], []⟩,
    water := ⟨["H"], [⟨⟨2025, 6, 1⟩, [("H", 5)]⟩]⟩,
    occupancy := [⟨⟨2025, 6, 1⟩, "H", 2, some 1⟩] }

/-! ## The claims -/

/-- C1, counterexample: on `negSleepersBundle` the program returns a
water saving of 0, while the claim's formula (per-guest value = usage ÷
Sleepers, 0 only when the Sleepers total is exactly 0) yields 10: the
code guards the division with `> 0`, not with `== 0`. -/
theorem claim_C1_counterexample :
    latestMonth negSleepersBundle.waste = some ⟨2025, 6, 1⟩ ∧
      (calculate_guest_impact negSleepersBundle "H").map GuestImpact.waterSaved
        = some 0 ∧
      specWaterSaved negSleepersBundle "H" ⟨2025, 6, 1⟩ = 10 ∧
      (0 : ℚ) ≠ 10 := by
  refine ⟨by rfl, ?_, ?_, by norm_num⟩
  · norm_num [calculate_guest_impact, negSleepersBundle, impactAt,
      latestMonth, dmax, dateLe, colSum, sleeperSum, wasteSel, listMean,
      perGuest, maxZero, maxZeroSubOpt, prevYear, prevMonth, daysInMonth,
      isLeap, monthLabel, monthName, List.filter, List.lookup]
  · norm_num [specWaterSaved, specPerGuest, negSleepersBundle, colSum,
      sleeperSum, prevYear, daysInMonth, isLeap, List.filter, List.lookup,
      max_def]

/-- C1 (amended): for every loaded bundle and selected hotel the
water-saved metric equals max(0, prevYearWaterPerGuest −
currentWaterPerGuest), where a per-guest value is the total metered
water for the hotel in the month divided by the total Sleepers in that
month when that total is positive and 0 otherwise, the current month is
the latest reporting month and the previous-year month is twelve months
earlier. -/
theorem claim_C1_water_saved (data : DataBundle) (h : String)
    (r : GuestImpact) (m : Date)
    (hc : calculate_guest_impact data h = some r)
    (hm : latestMonth data.waste = some m) :
    r.waterSaved = max 0
      (perGuest (colSum data.water h (prevYear m))
          (sleeperSum data.occupancy h (prevYear m)) -
        perGuest (colSum data.water h m) (sleeperSum data.occupancy h m)) := by
  obtain ⟨m', hm', hwc, hec, hr⟩ := calculate_eq_some hc
  rw [hm] at hm'
  injection hm' with hm'
  subst hm'
  subst hr
  simp only [impactAt]
  rw [maxZero_eq_max]

/-- C1 witness: on the spec's worked example (water 1000/100 guests this
year against 1200/100 a year before) the formula gives, and the program
returns, a saving of 2 per guest. -/
theorem claim_C1_water_saved_witness :
    exampleImpact.waterSaved = max 0
      (perGuest (colSum exampleBundle.water "H" (prevYear ⟨2025, 6, 1⟩))
          (sleeperSum exampleBundle.occupancy "H" (prevYear ⟨2025, 6, 1⟩)) -
        perGuest (colSum exampleBundle.water "H" ⟨2025, 6, 1⟩)
          (sleeperSum exampleBundle.occupancy "H" ⟨2025, 6, 1⟩)) ∧
      exampleImpact.waterSaved = 2 :=
  ⟨claim_C1_water_saved exampleBundle "H" exampleImpact ⟨2025, 6, 1⟩
      exampleBundle_eval (by rfl),
    by norm_num [exampleImpact]⟩

/-- C2: for every loaded bundle and selected hotel, the CO2 metric is
max(0, prevYearEnergyPerGuest − currentEnergyPerGuest) × 0.233, the
per-guest values built from electricity usage and Sleepers exactly as
the function builds them for water (in the code the factor sits inside
the clamp; the two agree because 0.233 > 0). -/
theorem claim_C2_co2_saved (data : DataBundle) (h : String)
    (r : GuestImpact) (m : Date)
    (hc : calculate_guest_impact data h = some r)
    (hm : latestMonth data.waste = some m) :
    r.co2Saved = max 0
      (perGuest (colSum data.electricity h (prevYear m))
          (sleeperSum data.occupancy h (prevYear m)) -
        perGuest (colSum data.electricity h m)
          (sleeperSum data.occupancy h m)) * 0.233 := by
  obtain ⟨m', hm', hwc, hec, hr⟩ := calculate_eq_some hc
  rw [hm] at hm'
  injection hm' with hm'
  subst hm'
  subst hr
  simp only [impactAt]
  rw [← maxZero_eq_max, ← maxZero_mul_pos _ _ (show (0 : ℚ) < 0.233 by norm_num)]

/-- C2 witness: a 10-kWh-per-guest year-over-year drop (2000/100 against
1000/100) yields 10 × 0.233 = 2.33 kg of CO2 per guest. -/
theorem claim_C2_co2_saved_witness :
    exampleImpact.co2Saved = max 0
      (perGuest (colSum exampleBundle.electricity "H" (prevYear ⟨2025, 6, 1⟩))
          (sleeperSum exampleBundle.occupancy "H" (prevYear ⟨2025, 6, 1⟩)) -
        perGuest (colSum exampleBundle.electricity "H" ⟨2025, 6, 1⟩)
          (sleeperSum exampleBundle.occupancy "H" ⟨2025, 6, 1⟩)) * 0.233 ∧
      exampleImpact.co2Saved = 233/100 :=
  ⟨claim_C2_co2_saved exampleBundle "H" exampleImpact ⟨2025, 6, 1⟩
      exampleBundle_eval (by rfl),
    by norm_num [exampleImpact]⟩

/-- C3: whenever the total Sleepers count of hotel `h` in a period is 0,
the per-guest value of that period (for water and for electricity) is
defined to be 0 — the guarded division of lines 103-104 and 112-113
never divides by zero. -/
theorem claim_C3_zero_sleepers (data : DataBundle) (h : String) (m : Date)
    (hz : sleeperSum data.occupancy h m = 0) :
    perGuest (colSum data.water h m) (sleeperSum data.occupancy h m) = 0 ∧
      perGuest (colSum data.electricity h m)
        (sleeperSum data.occupancy h m) = 0 := by
  rw [hz]
  simp [perGuest]

/-- C3 witness: on `negRateBundle` (empty occupancy table) the Sleepers
total is 0 and both per-guest values are 0. -/
theorem claim_C3_zero_sleepers_witness :
    perGuest (colSum negRateBundle.water "H" ⟨2025, 6, 1⟩)
        (sleeperSum negRateBundle.occupancy "H" ⟨2025, 6, 1⟩) = 0 ∧
      perGuest (colSum negRateBundle.electricity "H" ⟨2025, 6, 1⟩)
        (sleeperSum negRateBundle.occupancy "H" ⟨2025, 6, 1⟩) = 0 :=
  claim_C3_zero_sleepers negRateBundle "H" ⟨2025, 6, 1⟩ (by rfl)

/-- C4, counterexample: on `negRateBundle` the calculation succeeds and
returns recycling rate −1, which is negative — the recycling-rate field
of the result bundle is not clamped, so not all five returned metrics
are nonnegative for arbitrary input. -/
theorem claim_C4_counterexample :
    (calculate_guest_impact negRateBundle "H").map GuestImpact.recyclingRate
        = some (some (-1)) ∧
      ¬ (0 : ℚ) ≤ -1 := by
  refine ⟨?_, by norm_num⟩
  norm_num [calculate_guest_impact, negRateBundle, impactAt, latestMonth,
    dmax, dateLe, colSum, sleeperSum, wasteSel, listMean, perGuest, maxZero,
    maxZeroSubOpt, prevYear, prevMonth, daysInMonth, isLeap, monthLabel,
    monthName, List.filter, List.lookup]

/-- C4 (amended): the four clamped or constant metrics of the result
bundle — water saved, CO2 prevented, recycling target and food-waste
reduction — are ≥ 0 for any input; the recycling rate is returned
unclamped and can be negative when input rates are negative. -/
theorem claim_C4_nonneg (data : DataBundle) (h : String) (r : GuestImpact)
    (hc : calculate_guest_impact data h = some r) :
    0 ≤ r.waterSaved ∧ 0 ≤ r.co2Saved ∧ 0 ≤ r.recyclingTarget ∧
      0 ≤ r.foodSaved := by
  obtain ⟨m, hm, hwc, hec, hr⟩ := calculate_eq_some hc
  subst hr
  simp only [impactAt]
  exact ⟨maxZero_nonneg _, maxZero_nonneg _, by norm_num,
    maxZeroSubOpt_nonneg _ _⟩

/-- C4 witness: the four clamped or constant metrics are nonnegative on
the worked example bundle. -/
theorem claim_C4_nonneg_witness :
    0 ≤ exampleImpact.waterSaved ∧ 0 ≤ exampleImpact.co2Saved ∧
      0 ≤ exampleImpact.recyclingTarget ∧ 0 ≤ exampleImpact.foodSaved :=
  claim_C4_nonneg exampleBundle "H" exampleImpact exampleBundle_eval

/-- C5: the recycling-rate field is exactly the pandas mean of the
hotel's Recycling Rates in the latest reporting month (`NaN`, i.e.
`none`, when the hotel has no waste row in that month), unclamped, and
is returned alongside the fixed target 0.50. -/
theorem claim_C5_recycling (data : DataBundle) (h : String)
    (r : GuestImpact) (m : Date)
    (hc : calculate_guest_impact data h = some r)
    (hm : latestMonth data.waste = some m) :
    r.recyclingRate =
        listMean ((wasteSel data.waste h m).map WasteRow.recyclingRates) ∧
      r.recyclingTarget = 0.5 := by
  obtain ⟨m', hm', hwc, hec, hr⟩ := calculate_eq_some hc
  rw [hm] at hm'
  injection hm' with hm'
  subst hm'
  subst hr
  exact ⟨rfl, rfl⟩

/-- C5 witness: on the worked example the recycling rate is the mean of
the single rate 1/2 and the target is 0.50. -/
theorem claim_C5_recycling_witness :
    exampleImpact.recyclingRate =
        listMean ((wasteSel exampleBundle.waste "H" ⟨2025, 6, 1⟩).map
          WasteRow.recyclingRates) ∧
      exampleImpact.recyclingTarget = 0.5 :=
  claim_C5_recycling exampleBundle "H" exampleImpact ⟨2025, 6, 1⟩
    exampleBundle_eval (by rfl)

/-- C6: the food-waste-reduction metric is max(0, previous-month mean
Food Waste − current-month mean Food Waste): a month-over-month
comparison (`prevMonth`), not a year-over-year one. -/
theorem claim_C6_food_waste (data : DataBundle) (h : String)
    (r : GuestImpact) (m : Date) (p c : ℚ)
    (hc : calculate_guest_impact data h = some r)
    (hm : latestMonth data.waste = some m)
    (hp : listMean ((wasteSel data.waste h (prevMonth m)).map
      WasteRow.foodWaste) = some p)
    (hcur : listMean ((wasteSel data.waste h m).map
      WasteRow.foodWaste) = some c) :
    r.foodSaved = max 0 (p - c) := by
  obtain ⟨m', hm', hwc, hec, hr⟩ := calculate_eq_some hc
  rw [hm] at hm'
  injection hm' with hm'
  subst hm'
  subst hr
  simp only [impactAt]
  rw [hp, hcur]
  simp [maxZeroSubOpt, maxZero_eq_max]

theorem foodBundle_eval :
    calculate_guest_impact foodBundle "H"
      = some ⟨0, 0, some (1/2), 1/2, 3, "June 2025"⟩ := by
  norm_num [calculate_guest_impact, foodBundle, impactAt, latestMonth,
    dmax, dateLe, colSum, sleeperSum, wasteSel, listMean, perGuest,
    maxZero, maxZeroSubOpt, prevYear, prevMonth, daysInMonth, isLeap,
    monthLabel, monthName, List.filter, List.lookup]
  rfl

/-- C6 witness: with mean Food Waste 5 in May 2025 and 2 in June 2025
the program returns max(0, 5 − 2) = 3. -/
theorem claim_C6_food_waste_witness :
    (⟨0, 0, some (1/2), 1/2, 3, "June 2025"⟩ : GuestImpact).foodSaved =
      max 0 ((5 : ℚ) - 2) :=
  claim_C6_food_waste foodBundle "H" ⟨0, 0, some (1/2), 1/2, 3, "June 2025"⟩
    ⟨2025, 6, 1⟩ 5 2 foodBundle_eval (by rfl)
    (by norm_num [foodBundle, wasteSel, listMean, prevMonth, daysInMonth,
        isLeap, List.filter])
    (by norm_num [foodBundle, wasteSel, listMean, List.filter])

/-- C7: the month used by the calculation and put into the result label
is the maximum Month of the waste table: it belongs to the waste months
and is at least every waste month, and every lookup of the calculation
is performed at it (`calculate_guest_impact` factors through
`latestMonth`, computed from `data.waste` alone). -/
theorem claim_C7_latest_month (data : DataBundle) (h : String)
    (r : GuestImpact) (hc : calculate_guest_impact data h = some r) :
    ∃ m, m ∈ data.waste.map WasteRow.month ∧
      (∀ d ∈ data.waste.map WasteRow.month, dateLe d m = true) ∧
      latestMonth data.waste = some m ∧ r.month = monthLabel m := by
  obtain ⟨m, hm, hwc, hec, hr⟩ := calculate_eq_some hc
  obtain ⟨hmem, hmax⟩ := latestMonth_spec hm
  subst hr
  exact ⟨m, hmem, hmax, hm, rfl⟩

/-- C7 witness: on the worked example the label month June 2025 is the
maximum of the waste months. -/
theorem claim_C7_latest_month_witness :
    ∃ m, m ∈ exampleBundle.waste.map WasteRow.month ∧
      (∀ d ∈ exampleBundle.waste.map WasteRow.month, dateLe d m = true) ∧
      latestMonth exampleBundle.waste = some m ∧
      exampleImpact.month = monthLabel m :=
  claim_C7_latest_month exampleBundle "H" exampleImpact exampleBundle_eval

/-- C8: the calculation either produces the full result bundle or
signals failure and produces nothing — it succeeds exactly when the
waste table has at least one row (so a latest month exists) and the
selected hotel is a column of both the water and the electricity
table; there is no partial result. -/
theorem claim_C8_all_or_nothing (data : DataBundle) (h : String) :
    (calculate_guest_impact data h).isSome ↔
      (data.waste ≠ [] ∧ h ∈ data.water.cols ∧ h ∈ data.electricity.cols) := by
  unfold calculate_guest_impact
  cases hm : latestMonth data.waste with
  | none =>
    have hw := (latestMonth_eq_none_iff data.waste).mp hm
    simp [hw]
  | some m =>
    have hne : data.waste ≠ [] := by
      intro he
      rw [he] at hm
      cases hm
    show (if h ∈ data.water.cols ∧ h ∈ data.electricity.cols then
        some (impactAt data h m) else none).isSome ↔ _
    by_cases hcols : h ∈ data.water.cols ∧ h ∈ data.electricity.cols
    · rw [if_pos hcols]
      simp [hne, hcols.1, hcols.2]
    · rw [if_neg hcols]
      simp only [Option.isSome_none, Bool.false_eq_true, false_iff]
      intro hall
      exact hcols ⟨hall.2.1, hall.2.2⟩

/-- C10, counterexample: on `negUsageBundle` the previous-year month is
absent from every table, the calculation succeeds, and the water-saved
metric is 5, not 0 — the empty previous-year selection makes the
previous per-guest value 0, but a negative current reading then yields
a positive "saving". -/
theorem claim_C10_counterexample :
    (∀ row ∈ negUsageBundle.water.rows, row.month ≠ prevYear ⟨2025, 6, 1⟩) ∧
      (∀ row ∈ negUsageBundle.electricity.rows,
        row.month ≠ prevYear ⟨2025, 6, 1⟩) ∧
      (∀ o ∈ negUsageBundle.occupancy, o.month ≠ prevYear ⟨2025, 6, 1⟩) ∧
      latestMonth negUsageBundle.waste = some ⟨2025, 6, 1⟩ ∧
      (calculate_guest_impact negUsageBundle "H").map GuestImpact.waterSaved
        = some 5 ∧
      (5 : ℚ) ≠ 0 := by
  refine ⟨by decide, by decide, by decide, by rfl, ?_, by norm_num⟩
  norm_num [calculate_guest_impact, negUsageBundle, impactAt, latestMonth,
    dmax, dateLe, colSum, sleeperSum, wasteSel, listMean, perGuest, maxZero,
    maxZeroSubOpt, prevYear, prevMonth, daysInMonth, isLeap, monthLabel,
    monthName, List.filter, List.lookup]

/-- C10 (amended): if the water, electricity and occupancy tables have
no row for the previous-year comparison month, the calculation does not
signal failure: the sums over the empty selections are 0, the
previous-year per-guest value is 0, and — provided the current-month
usage totals are nonnegative — the clamped water and CO2 metrics are
returned as 0 in a successful result bundle. -/
theorem claim_C10_missing_month (data : DataBundle) (h : String) (m : Date)
    (hwc : h ∈ data.water.cols) (hec : h ∈ data.electricity.cols)
    (hm : latestMonth data.waste = some m)
    (hnw : ∀ row ∈ data.water.rows, row.month ≠ prevYear m)
    (hne : ∀ row ∈ data.electricity.rows, row.month ≠ prevYear m)
    (hno : ∀ o ∈ data.occupancy, o.month ≠ prevYear m)
    (hcw : 0 ≤ colSum data.water h m)
    (hce : 0 ≤ colSum data.electricity h m) :
    ∃ r, calculate_guest_impact data h = some r ∧
      colSum data.water h (prevYear m) = 0 ∧
      colSum data.electricity h (prevYear m) = 0 ∧
      sleeperSum data.occupancy h (prevYear m) = 0 ∧
      perGuest (colSum data.water h (prevYear m))
        (sleeperSum data.occupancy h (prevYear m)) = 0 ∧
      r.waterSaved = 0 ∧ r.co2Saved = 0 := by
  have hwsum : colSum data.water h (prevYear m) = 0 := by
    unfold colSum
    rw [List.filter_eq_nil_iff.mpr]
    · rfl
    · intro row hrow
      simp only [decide_eq_true_eq]
      exact hnw row hrow
  have hesum : colSum data.electricity h (prevYear m) = 0 := by
    unfold colSum
    rw [List.filter_eq_nil_iff.mpr]
    · rfl
    · intro row hrow
      simp only [decide_eq_true_eq]
      exact hne row hrow
  have hosum : sleeperSum data.occupancy h (prevYear m) = 0 := by
    unfold sleeperSum
    rw [List.filter_eq_nil_iff.mpr]
    · rfl
    · intro o ho
      simp only [decide_eq_true_eq, not_and]
      exact fun _ => hno o ho
  refine ⟨impactAt data h m, ?_, hwsum, hesum, hosum, ?_, ?_, ?_⟩
  · unfold calculate_guest_impact
    rw [hm]
    show (if h ∈ data.water.cols ∧ h ∈ data.electricity.cols then
        some (impactAt data h m) else none) = some (impactAt data h m)
    rw [if_pos ⟨hwc, hec⟩]
  · rw [hwsum, hosum, perGuest_zero_denom]
  · simp only [impactAt]
    rw [hwsum, hosum, perGuest_zero_denom, zero_sub]
    exact maxZero_of_nonpos
      (neg_nonpos.mpr (perGuest_nonneg _ hcw))
  · simp only [impactAt]
    rw [hesum, hosum, perGuest_zero_denom, zero_sub]
    refine maxZero_of_nonpos ?_
    have h1 : -perGuest (colSum data.electricity h m)
        (sleeperSum data.occupancy h m) ≤ 0 :=
      neg_nonpos.mpr (perGuest_nonneg _ hce)
    have h2 := mul_le_mul_of_nonneg_right h1 (show (0:ℚ) ≤ 0.233 by norm_num)
    rwa [zero_mul] at h2

/-- C10 witness: on `noPrevYearBundle` (previous-year month absent
everywhere, nonnegative current readings) the calculation succeeds with
water and CO2 savings 0. -/
theorem claim_C10_missing_month_witness :
    ∃ r, calculate_guest_impact noPrevYearBundle "H" = some r ∧
      colSum noPrevYearBundle.water "H" (prevYear ⟨2025, 6, 1⟩) = 0 ∧
      colSum noPrevYearBundle.electricity "H" (prevYear ⟨2025, 6, 1⟩) = 0 ∧
      sleeperSum noPrevYearBundle.occupancy "H" (prevYear ⟨2025, 6, 1⟩) = 0 ∧
      perGuest (colSum noPrevYearBundle.water "H" (prevYear ⟨2025, 6, 1⟩))
        (sleeperSum noPrevYearBundle.occupancy "H" (prevYear ⟨2025, 6, 1⟩))
        = 0 ∧
      r.waterSaved = 0 ∧ r.co2Saved = 0 :=
  claim_C10_missing_month noPrevYearBundle "H" ⟨2025, 6, 1⟩
    (by decide) (by decide) (by rfl) (by decide) (by decide) (by decide)
    (by norm_num [noPrevYearBundle, colSum, List.filter, List.lookup])
    (by norm_num [noPrevYearBundle, colSum, List.filter, List.lookup])

/-! ## The data loader (`load_data`, lines 54-81)

The loader reads four CSV files (a read of a missing file raises, so a
missing resource is modelled as `none`), converts every `Month` cell
with `pd.to_datetime(..., format='%d/%m/%Y')` (`errors='raise'` by
default: one malformed cell aborts the whole conversion), and converts
the percent-suffixed `Occupancy Rate` text column to a 0-1 fraction via
`.str.rstrip('%').astype(float) / 100`.  The surrounding `try/except`
turns every such failure into `None`. -/

